import Mathlib

/-!
Shallow embedding of the retirement calculator script
(`retirement-calculator-app.py`).  Monetary quantities and rates are
modelled as rationals (the script computes with Python/pandas floats);
the integer table produced by `df.round(0).astype(int)` is modelled by
half-to-even rounding to `ℤ`, which is what `numpy.round` does.
-/

set_option autoImplicit false

namespace RetCalc

/-- Tax categories: the keys of the `TAX_BRACKETS` / `TAX_RATES` /
`DEDUCTIONS` dictionaries. -/
inductive TaxType
  | income
  | fica
  | capital_gains
deriving DecidableEq

open TaxType

/-- The `TAX_BRACKETS` table.  A bracket is `(min_income, max_income)`;
`none` as an upper bound stands for `float('inf')` on the top bracket. -/
def TAX_BRACKETS : TaxType → List (ℚ × Option ℚ)
  | income => [(0, some 11000), (11001, some 44725), (44726, some 95375),
      (95376, some 182100), (182101, some 231250), (231251, some 578125),
      (578126, none)]
  | fica => [(0, some 160000)]
  | capital_gains => [(0, some 40000), (40001, some 441450), (441451, none)]

/-- The `TAX_RATES` table (parallel to the brackets). -/
def TAX_RATES : TaxType → List ℚ
  | income => [10/100, 12/100, 22/100, 24/100, 32/100, 35/100, 37/100]
  | fica => [765/10000]
  | capital_gains => [0, 15/100, 20/100]

/-- The `DEDUCTIONS` table. -/
def DEDUCTIONS : TaxType → ℚ
  | income => 13850
  | fica => 0
  | capital_gains => 0

/-- The loop body of `calculate_tax`, folded over the zipped
bracket/rate list with the running `remaining_income`.
Each iteration computes
`taxable_income = min(max_income, income - deduction) - min_income`,
adds `taxable_income * rate` when positive, and decrements
`remaining_income` by the bracket width; with an unbounded upper edge
(`none`, i.e. `float('inf')`) the bracket width is infinite, so
`remaining_income` becomes `-inf` and every later iteration hits the
`remaining_income <= 0` break and contributes nothing — hence the
recursion stops there. -/
def calcTaxGo (income deduction : ℚ) :
    List ((ℚ × Option ℚ) × ℚ) → ℚ → ℚ
  | [], _ => 0
  | ((min_income, max_income), rate) :: rest, remaining_income =>
    if remaining_income ≤ 0 then 0
    else
      match max_income with
      | none =>
        if 0 < income - deduction - min_income
        then (income - deduction - min_income) * rate else 0
      | some m =>
        (if 0 < min m (income - deduction) - min_income
         then (min m (income - deduction) - min_income) * rate else 0)
        + calcTaxGo income deduction rest (remaining_income - (m - min_income))

/-- The `calculate_tax(income, tax_type)` function: walk the zipped
bracket/rate list starting from `remaining_income = income`. -/
def calculate_tax (income : ℚ) (tax_type : TaxType) : ℚ :=
  calcTaxGo income (DEDUCTIONS tax_type)
    ((TAX_BRACKETS tax_type).zip (TAX_RATES tax_type)) income

/-- The `income_tax` helper. -/
def income_tax (i : ℚ) : ℚ := calculate_tax i income

/-- The `fica_tax` helper. -/
def fica_tax (i : ℚ) : ℚ := calculate_tax i fica

/-- The `capital_gains_tax` helper. -/
def capital_gains_tax (i : ℚ) : ℚ := calculate_tax i capital_gains

/-- Round half-to-even to an integer, the behaviour of
`numpy.round` / `pandas.DataFrame.round(0)`; the subsequent
`astype(int)` on the already-integral value is the identity. -/
def roundHalfEven (q : ℚ) : ℤ :=
  let f : ℤ := ⌊q⌋
  let frac : ℚ := q - f
  if frac < 1/2 then f
  else if 1/2 < frac then f + 1
  else if f % 2 = 0 then f else f + 1

/-- The sidebar inputs of the script, gathered into one configuration
record (`age`, `initial_salary`, `savings_rate`, `current_savings`,
`interest_on_debt`, `rate_of_return`, `withdrawal_rate`,
`salary_growth`, `checkbox_state`, `other_income`, `life_expectancy`). -/
structure Config where
  age : ℤ
  initial_salary : ℚ
  savings_rate : ℚ
  current_savings : ℚ
  interest_on_debt : ℚ
  rate_of_return : ℚ
  withdrawal_rate : ℚ
  salary_growth : ℚ
  checkbox_state : Bool
  other_income : ℚ
  life_expectancy : ℤ
deriving DecidableEq

/-- The `career_length = life_expectancy - age` expression. -/
def career_length (cfg : Config) : ℤ := cfg.life_expectancy - cfg.age

/-- The `Year` column: `range(1, life_expectancy - age + 1)`. -/
def yearsList (cfg : Config) : List ℕ :=
  (List.range (career_length cfg).toNat).map (· + 1)

/-- One entry of the `Salary` column, as a function of the (1-based)
year.  With the diminish checkbox on, `start_year = 1` and
`end_year = career_length` (the min and max of the `Year` column) and
`total_years = end_year - start_year`; the script then takes
`initial_salary * (1 + g - g*(1/2)*(Year - start)/total) ** (Year - start)`.
With the checkbox off it takes
`initial_salary * (1 + g - g/Year) ** (Year - 1)`.
When `total_years = 0` the only year in the table is year 1, whose
exponent is `0`; the script and this model both yield
`initial_salary` there (numpy: `nan ** 0 = 1`; here: division by zero
is `0` and `x ^ 0 = 1`), so the model agrees with the script on every
row of the table. -/
def salaryFor (cfg : Config) (year : ℕ) : ℚ :=
  if cfg.checkbox_state then
    let start_year : ℚ := 1
    let end_year : ℚ := ((career_length cfg).toNat : ℚ)
    let total_years : ℚ := end_year - start_year
    cfg.initial_salary *
      (1 + cfg.salary_growth -
        cfg.salary_growth * (1/2) * ((year : ℚ) - start_year) / total_years)
      ^ (year - 1)
  else
    cfg.initial_salary *
      (1 + cfg.salary_growth - cfg.salary_growth / (year : ℚ)) ^ (year - 1)

/-- One entry of the `After Tax Income` column:
`Salary - (Income Tax + FICA Tax)`. -/
def afterTaxFor (cfg : Config) (year : ℕ) : ℚ :=
  salaryFor cfg year - (income_tax (salaryFor cfg year) + fica_tax (salaryFor cfg year))

/-- One entry of the `Retirement Contribution` column:
`After Tax Income * savings_rate`. -/
def contribFor (cfg : Config) (year : ℕ) : ℚ :=
  afterTaxFor cfg year * cfg.savings_rate

/-- One entry of the `Spending` column:
`After Tax Income - Retirement Contribution`. -/
def spendingFor (cfg : Config) (year : ℕ) : ℚ :=
  afterTaxFor cfg year - contribFor cfg year

/-- The `Salary` column. -/
def salaryList (cfg : Config) : List ℚ := (yearsList cfg).map (salaryFor cfg)

/-- The `Retirement Contribution` column. -/
def contribsList (cfg : Config) : List ℚ := (yearsList cfg).map (contribFor cfg)

/-- The body of the net-worth loop: given the previous row's net worth
and this row's retirement contribution, the new net worth is
`contribution + prev * (1 + rate_of_return)` when `prev >= 0` and
`contribution + prev * (1 + interest_on_debt)` otherwise. -/
def nwStep (cfg : Config) (prev c : ℚ) : ℚ :=
  if 0 ≤ prev then c + prev * (1 + cfg.rate_of_return)
  else c + prev * (1 + cfg.interest_on_debt)

/-- Scan of `nwStep` along the remaining contributions. -/
def nwScan (cfg : Config) (prev : ℚ) : List ℚ → List ℚ
  | [] => []
  | c :: cs =>
    let nw := nwStep cfg prev c
    nw :: nwScan cfg nw cs

/-- The `Net Worth` column: row 0 is
`Retirement Contribution[0] + current_savings`, and each later row is
produced by `nwStep` from the previous row. -/
def netWorthList (cfg : Config) : List ℚ :=
  match contribsList cfg with
  | [] => []
  | c :: cs =>
    let nw0 := c + cfg.current_savings
    nw0 :: nwScan cfg nw0 cs

/-- The `Investment Income` column: `Net Worth * withdrawal_rate`.
The `other_income` sidebar input is read by the script but never used
in this (or any) computation. -/
def invIncomeList (cfg : Config) : List ℚ :=
  (netWorthList cfg).map (· * cfg.withdrawal_rate)

/-- The `Spending` column. -/
def spendingList (cfg : Config) : List ℚ := (yearsList cfg).map (spendingFor cfg)

/-- One row of the table before `df.round(0).astype(int)`:
rational-valued columns plus the integer `Year` and `Age` columns. -/
structure YearRecordQ where
  year : ℕ
  age : ℤ
  salary : ℚ
  incomeTax : ℚ
  ficaTax : ℚ
  totalTax : ℚ
  afterTaxIncome : ℚ
  retirementContribution : ℚ
  netWorth : ℚ
  spending : ℚ
  investmentIncome : ℚ
deriving DecidableEq

/-- One row of the published (rounded, integer) table. -/
structure YearRecordZ where
  year : ℕ
  age : ℤ
  salary : ℤ
  incomeTax : ℤ
  ficaTax : ℤ
  totalTax : ℤ
  afterTaxIncome : ℤ
  retirementContribution : ℤ
  netWorth : ℤ
  spending : ℤ
  investmentIncome : ℤ
deriving DecidableEq

/-- Dummy rational row (default for `List.getD`). -/
def dq : YearRecordQ :=
  ⟨0, 0, 0, 0, 0, 0, 0, 0, 0, 0, 0⟩

/-- Dummy integer row (default for `List.getD`). -/
def dz : YearRecordZ :=
  ⟨0, 0, 0, 0, 0, 0, 0, 0, 0, 0, 0⟩

/-- The table rows before rounding: the columns of lines 198-224 of the
script, assembled per row.  `Net Worth` is positional (the first-order
recurrence), all other columns are per-year functions of the salary. -/
def rawRecords (cfg : Config) : List YearRecordQ :=
  ((yearsList cfg).zip (netWorthList cfg)).map fun p =>
    { year := p.1
      age := (p.1 : ℤ) + cfg.age
      salary := salaryFor cfg p.1
      incomeTax := income_tax (salaryFor cfg p.1)
      ficaTax := fica_tax (salaryFor cfg p.1)
      totalTax := income_tax (salaryFor cfg p.1) + fica_tax (salaryFor cfg p.1)
      afterTaxIncome := afterTaxFor cfg p.1
      retirementContribution := contribFor cfg p.1
      netWorth := p.2
      spending := spendingFor cfg p.1
      investmentIncome := p.2 * cfg.withdrawal_rate }

/-- The `df.round(0).astype(int)` step applied to one row: every
monetary column is rounded half-to-even to an integer; `Year` and
`Age` are already integers. -/
def roundRecord (r : YearRecordQ) : YearRecordZ :=
  { year := r.year
    age := r.age
    salary := roundHalfEven r.salary
    incomeTax := roundHalfEven r.incomeTax
    ficaTax := roundHalfEven r.ficaTax
    totalTax := roundHalfEven r.totalTax
    afterTaxIncome := roundHalfEven r.afterTaxIncome
    retirementContribution := roundHalfEven r.retirementContribution
    netWorth := roundHalfEven r.netWorth
    spending := roundHalfEven r.spending
    investmentIncome := roundHalfEven r.investmentIncome }

/-- The published table: the rows after `df.round(0).astype(int)`. -/
def publishedRecords (cfg : Config) : List YearRecordZ :=
  (rawRecords cfg).map roundRecord

/-- The `difference` series of line 229:
`df['Investment Income'] - df['Spending']` on the published (rounded,
integer) table. -/
def diffs (cfg : Config) : List ℤ :=
  (publishedRecords cfg).map fun r => r.investmentIncome - r.spending

/-- Index of the first sign change:
`np.where(np.diff(np.sign(difference)))[0][0]` — the first `i` with
`sign(difference[i+1]) ≠ sign(difference[i])`, if any. -/
def firstSignChange : List ℤ → Option ℕ
  | a :: b :: rest =>
    if Int.sign a = Int.sign b then (firstSignChange (b :: rest)).map (· + 1)
    else some 0
  | _ => none

/-- The reported financial-freedom age:
`df['Age'].iloc[intersection_idx[0] + 1]` when a sign change exists,
absent otherwise.  Row `k + 1` has `Year = k + 2`, hence
`Age = age + k + 2`. -/
def ffAge (cfg : Config) : Option ℤ :=
  (firstSignChange (diffs cfg)).map fun k : ℕ => cfg.age + (k : ℤ) + 2

/-- The ways a run of the script can end abnormally.  The script
defines no error of its own (in particular no `InvalidConfiguration`
validation error — that constructor exists here only so that the
failure mode claimed by the spec can be stated); the one uncaught exception an
in-range input can produce is the `KeyError` below. -/
inductive RunError
  | keyError
  | invalidConfiguration
deriving DecidableEq

/-- The whole projection run.  The script performs no input validation.
When the `Year` range is empty (horizon ≤ 0, reachable in the UI via
`life_expectancy = age`), the column assignments of lines 198-213 still
go through on the empty frame, but line 214 seeds the `Net Worth`
column with the getter `df.loc[0, 'Retirement Contribution']` on a
frame that has no row 0, and the script dies with an uncaught
`KeyError`, publishing nothing.  Otherwise it runs to completion and
publishes the rounded table. -/
def project (cfg : Config) : Except RunError (List YearRecordZ) :=
  match yearsList cfg with
  | [] => Except.error RunError.keyError
  | _ :: _ => Except.ok (publishedRecords cfg)

/-- A run starting in debt: zero salary, zero savings rate, 1000 of
debt, 8% debt interest, 3-year horizon. -/
def cfgC1 : Config :=
  { age := 30, initial_salary := 0, savings_rate := 0, current_savings := -1000,
    interest_on_debt := 8/100, rate_of_return := 7/100, withdrawal_rate := 35/1000,
    salary_growth := 1/100, checkbox_state := false, other_income := 0,
    life_expectancy := 33 }

/-- A run that is financially free from its very first year: zero
salary and spending, 1,000,000 of savings, 2-year horizon. -/
def cfgC2 : Config :=
  { age := 30, initial_salary := 0, savings_rate := 0, current_savings := 1000000,
    interest_on_debt := 8/100, rate_of_return := 7/100, withdrawal_rate := 35/1000,
    salary_growth := 0, checkbox_state := false, other_income := 0,
    life_expectancy := 32 }

/-- A run with 1000 of other retirement income and nothing else. -/
def cfgC3 : Config :=
  { age := 30, initial_salary := 0, savings_rate := 0, current_savings := 0,
    interest_on_debt := 8/100, rate_of_return := 7/100, withdrawal_rate := 35/1000,
    salary_growth := 0, checkbox_state := false, other_income := 1000,
    life_expectancy := 31 }

/-- The worked salary example: 52000 initial salary, 3% growth,
diminish checkbox off. -/
def cfgC4 : Config :=
  { age := 30, initial_salary := 52000, savings_rate := 20/100, current_savings := 0,
    interest_on_debt := 8/100, rate_of_return := 7/100, withdrawal_rate := 35/1000,
    salary_growth := 3/100, checkbox_state := false, other_income := 0,
    life_expectancy := 79 }

/-- A degenerate run whose horizon is zero
(`life_expectancy = age`). -/
def cfgC7 : Config :=
  { age := 30, initial_salary := 52000, savings_rate := 20/100, current_savings := 0,
    interest_on_debt := 8/100, rate_of_return := 7/100, withdrawal_rate := 35/1000,
    salary_growth := 1/100, checkbox_state := false, other_income := 0,
    life_expectancy := 30 }

/-- A run with the diminish checkbox on, used to exercise the
diminishing-growth salary branch. -/
def cfgC8 : Config :=
  { age := 30, initial_salary := 52000, savings_rate := 20/100, current_savings := 0,
    interest_on_debt := 8/100, rate_of_return := 7/100, withdrawal_rate := 35/1000,
    salary_growth := 3/100, checkbox_state := true, other_income := 0,
    life_expectancy := 40 }

/-- A one-year run used to exercise the rounding step. -/
def cfgC10 : Config :=
  { age := 30, initial_salary := 52000, savings_rate := 20/100, current_savings := 0,
    interest_on_debt := 8/100, rate_of_return := 7/100, withdrawal_rate := 35/1000,
    salary_growth := 1/100, checkbox_state := false, other_income := 0,
    life_expectancy := 31 }

/-! ### Generic list lemmas -/

theorem getD_map {α β : Type} (f : α → β) (da : α) (db : β) :
    ∀ (l : List α) (i : ℕ), i < l.length → (l.map f).getD i db = f (l.getD i da)
  | _ :: _, 0, _ => rfl
  | _ :: l, i + 1, h => getD_map f da db l i (by simpa using h)
  | [], _, h => absurd h (by simp)

theorem nwScan_length (cfg : Config) :
    ∀ (prev : ℚ) (cs : List ℚ), (nwScan cfg prev cs).length = cs.length
  | _, [] => rfl
  | prev, c :: cs => by simp [nwScan, nwScan_length cfg (nwStep cfg prev c) cs]

theorem yearsList_length (cfg : Config) :
    (yearsList cfg).length = (career_length cfg).toNat := by
  simp [yearsList]

theorem contribsList_length (cfg : Config) :
    (contribsList cfg).length = (career_length cfg).toNat := by
  simp [contribsList, yearsList]

theorem netWorthList_length (cfg : Config) :
    (netWorthList cfg).length = (career_length cfg).toNat := by
  rw [← contribsList_length]
  rcases h : contribsList cfg with _ | ⟨c, cs⟩ <;>
    simp [netWorthList, h, nwScan_length]

theorem nwScan_getD (cfg : Config) :
    ∀ (cs : List ℚ) (prev : ℚ) (i : ℕ), i < cs.length →
      (prev :: nwScan cfg prev cs).getD (i + 1) 0 =
        nwStep cfg ((prev :: nwScan cfg prev cs).getD i 0) (cs.getD i 0)
  | [], _, _, h => absurd h (by simp)
  | c :: cs, prev, 0, _ => by simp [nwScan]
  | c :: cs, prev, i + 1, h => by
    have ih := nwScan_getD cfg cs (nwStep cfg prev c) i (by simpa using h)
    simpa [nwScan] using ih

/-! ### Tax-engine lemmas -/

theorem calcTaxGo_nonneg (inc d : ℚ) :
    ∀ (l : List ((ℚ × Option ℚ) × ℚ)), (∀ p ∈ l, 0 ≤ p.2) →
      ∀ r : ℚ, 0 ≤ calcTaxGo inc d l r
  | [], _, _ => le_refl 0
  | ((mi, none), rate) :: _, hl, r => by
    have hrate : 0 ≤ rate := hl ((mi, none), rate) (by simp)
    simp only [calcTaxGo]
    split
    · exact le_refl 0
    · split
      · exact mul_nonneg (le_of_lt (by assumption)) hrate
      · exact le_refl 0
  | ((mi, some m), rate) :: rest, hl, r => by
    have hrate : 0 ≤ rate := hl ((mi, some m), rate) (by simp)
    have hrest : ∀ p ∈ rest, 0 ≤ p.2 := fun p hp => hl p (List.mem_cons_of_mem _ hp)
    have ih := calcTaxGo_nonneg inc d rest hrest (r - (m - mi))
    simp only [calcTaxGo]
    split
    · exact le_refl 0
    · refine add_nonneg ?_ ih
      split
      · exact mul_nonneg (le_of_lt (by assumption)) hrate
      · exact le_refl 0

theorem calcTaxGo_mono (d : ℚ) :
    ∀ (l : List ((ℚ × Option ℚ) × ℚ)), (∀ p ∈ l, 0 ≤ p.2) →
      ∀ x y rx ry : ℚ, x ≤ y → rx ≤ ry →
        calcTaxGo x d l rx ≤ calcTaxGo y d l ry
  | [], _, x, y, rx, ry, _, _ => le_refl 0
  | ((mi, ma), rate) :: rest, hl, x, y, rx, ry, hxy, hr => by
    have hrate : 0 ≤ rate := hl ((mi, ma), rate) (by simp)
    by_cases hry : ry ≤ 0
    · have hrx : rx ≤ 0 := le_trans hr hry
      cases ma <;> simp only [calcTaxGo, if_pos hrx, if_pos hry] <;> exact le_refl 0
    · by_cases hrx : rx ≤ 0
      · have hnn : 0 ≤ calcTaxGo y d (((mi, ma), rate) :: rest) ry :=
          calcTaxGo_nonneg y d _ hl ry
        cases ma <;>
          simpa only [calcTaxGo, if_pos hrx, if_neg hry] using hnn
      · have hcap : ∀ m : ℚ, min m (x - d) - mi ≤ min m (y - d) - mi := fun m =>
          sub_le_sub_right (min_le_min (le_refl m) (sub_le_sub_right hxy d)) mi
      -- the per-bracket contribution is monotone in the income
        have hterm : ∀ cx cy : ℚ, cx ≤ cy →
            (if 0 < cx then cx * rate else 0) ≤ (if 0 < cy then cy * rate else 0) := by
          intro cx cy hc
          split
          · rw [if_pos (lt_of_lt_of_le (by assumption) hc)]
            exact mul_le_mul_of_nonneg_right hc hrate
          · split
            · exact mul_nonneg (le_of_lt (by assumption)) hrate
            · exact le_refl 0
        cases ma with
        | none =>
          simp only [calcTaxGo, if_neg hrx, if_neg hry]
          exact hterm _ _ (sub_le_sub_right (sub_le_sub_right hxy d) mi)
        | some m =>
          have hrest : ∀ p ∈ rest, 0 ≤ p.2 := fun p hp => hl p (List.mem_cons_of_mem _ hp)
          have ih := calcTaxGo_mono d rest hrest x y (rx - (m - mi)) (ry - (m - mi))
            hxy (sub_le_sub_right hr _)
          simp only [calcTaxGo, if_neg hrx, if_neg hry]
          exact add_le_add (hterm _ _ (hcap m)) ih

theorem zip_rates_nonneg (t : TaxType) :
    ∀ p ∈ (TAX_BRACKETS t).zip (TAX_RATES t), 0 ≤ p.2 := by
  cases t with
  | income =>
    intro p hp
    simp [TAX_BRACKETS, TAX_RATES, List.zip_cons_cons] at hp
    rcases hp with rfl | rfl | rfl | rfl | rfl | rfl | rfl <;> norm_num
  | fica =>
    intro p hp
    simp [TAX_BRACKETS, TAX_RATES, List.zip_cons_cons] at hp
    subst hp
    norm_num
  | capital_gains =>
    intro p hp
    simp [TAX_BRACKETS, TAX_RATES, List.zip_cons_cons] at hp
    rcases hp with rfl | rfl | rfl <;> norm_num

/-! ### Sign-change lemmas -/

theorem fsc_none : ∀ (l : List ℤ), firstSignChange l = none →
    ∀ i, i + 1 < l.length → (l.getD (i + 1) 0).sign = (l.getD i 0).sign
  | [], _, _, hi => absurd hi (by simp)
  | [_], _, _, hi => absurd hi (by simp)
  | a :: b :: rest, h, i, hi => by
    by_cases hs : Int.sign a = Int.sign b
    · have h2 : firstSignChange (b :: rest) = none := by
        simpa [firstSignChange, hs] using h
      cases i with
      | zero => simpa using hs.symm
      | succ j =>
        have := fsc_none (b :: rest) h2 j (by simpa using hi)
        simpa using this
    · simp [firstSignChange, hs] at h

theorem fsc_some : ∀ (l : List ℤ) (k : ℕ), firstSignChange l = some k →
    k + 1 < l.length ∧ (l.getD (k + 1) 0).sign ≠ (l.getD k 0).sign ∧
      ∀ j, j < k → (l.getD (j + 1) 0).sign = (l.getD j 0).sign
  | [], k, h => by simp [firstSignChange] at h
  | [_], k, h => by simp [firstSignChange] at h
  | a :: b :: rest, k, h => by
    by_cases hs : Int.sign a = Int.sign b
    · have h2 : ∃ m, firstSignChange (b :: rest) = some m ∧ m + 1 = k := by
        simpa [firstSignChange, hs] using h
      obtain ⟨m, hm, rfl⟩ := h2
      obtain ⟨h1, hne, hall⟩ := fsc_some (b :: rest) m hm
      refine ⟨by simpa using h1, by simpa using hne, ?_⟩
      intro j hj
      cases j with
      | zero => simpa using hs.symm
      | succ j2 =>
        have := hall j2 (by omega)
        simpa using this
    · have hk : k = 0 := by
        have := h
        simp [firstSignChange, hs] at this
        omega
      subst hk
      refine ⟨by simp, ?_, ?_⟩
      · simpa using fun hc => hs hc.symm
      · intro j hj
        exact absurd hj (Nat.not_lt_zero j)

theorem roundHalfEven_intCast (n : ℤ) : roundHalfEven (n : ℚ) = n := by
  norm_num [roundHalfEven]

/-! ### Claim theorems -/

/-- C1, counterexample: the claim asserts that a negative net worth
grows at rate `-debtInterestRate`, i.e. by the factor
`1 + (-interest_on_debt)`.  On `cfgC1` (debt of 1000, 8% debt
interest, no contributions) the script computes
`netWorth[1] = -1080 = -1000 * (1 + interest_on_debt)`, while the
claimed formula would give `-1000 * (1 - 0.08) = -920 ≠ -1080`. -/
theorem C1_debt_rate_counterexample :
    (netWorthList cfgC1).getD 0 0 = -1000 ∧
    (contribsList cfgC1).getD 1 0 = 0 ∧
    (netWorthList cfgC1).getD 1 0 = -1080 ∧
    ¬ ((-1080 : ℚ) = (-1000 : ℚ) * (1 + -(8/100)) + 0) := by
  refine ⟨?_, ?_, ?_, by norm_num⟩ <;>
  · simp [netWorthList, contribsList, yearsList, career_length, List.range_succ,
      nwScan, nwStep, contribFor, afterTaxFor, salaryFor, income_tax, fica_tax,
      calculate_tax, calcTaxGo, TAX_BRACKETS, TAX_RATES, DEDUCTIONS, cfgC1]
    try norm_num

/-- C1, amended: the net-worth recurrence of the script.
`netWorth[0] = currentNetWorth + retirementContribution[0]`, and for
`i > 0`, `netWorth[i] = netWorth[i-1] * (1 + rate) + retirementContribution[i]`
where `rate = rate_of_return` if `netWorth[i-1] ≥ 0` and
`rate = +interest_on_debt` (not its negation) if `netWorth[i-1] < 0`. -/
theorem C1_netWorth_recurrence (cfg : Config) (i : ℕ)
    (h : i + 1 < (netWorthList cfg).length) :
    (netWorthList cfg).getD 0 0 = cfg.current_savings + (contribsList cfg).getD 0 0 ∧
    (netWorthList cfg).getD (i + 1) 0 =
      (netWorthList cfg).getD i 0 *
        (1 + (if 0 ≤ (netWorthList cfg).getD i 0 then cfg.rate_of_return
              else cfg.interest_on_debt)) +
      (contribsList cfg).getD (i + 1) 0 := by
  rcases hc : contribsList cfg with _ | ⟨c, cs⟩
  · have hnw : netWorthList cfg = [] := by
      unfold netWorthList
      rw [hc]
    rw [hnw] at h
    simp at h
  · have hnw : netWorthList cfg =
        (c + cfg.current_savings) :: nwScan cfg (c + cfg.current_savings) cs := by
      unfold netWorthList
      rw [hc]
    have hlen : i < cs.length := by
      rw [hnw] at h
      simpa [nwScan_length] using h
    constructor
    · rw [hnw]
      simp only [List.getD_cons_zero]
      exact add_comm c cfg.current_savings
    · have hrec := nwScan_getD cfg cs (c + cfg.current_savings) i hlen
      rw [hnw, hrec, List.getD_cons_succ]
      simp only [nwStep]
      split <;> ring

/-- C1, witness: the amended recurrence instantiated on `cfgC1` at
`i = 0`. -/
theorem C1_netWorth_recurrence_witness :
    0 + 1 < (netWorthList cfgC1).length ∧
    ((netWorthList cfgC1).getD 0 0 =
        cfgC1.current_savings + (contribsList cfgC1).getD 0 0 ∧
      (netWorthList cfgC1).getD (0 + 1) 0 =
        (netWorthList cfgC1).getD 0 0 *
          (1 + (if 0 ≤ (netWorthList cfgC1).getD 0 0 then cfgC1.rate_of_return
                else cfgC1.interest_on_debt)) +
        (contribsList cfgC1).getD (0 + 1) 0) :=
  ⟨by rw [netWorthList_length]; simp only [career_length, cfgC1]; omega,
   C1_netWorth_recurrence cfgC1 0
     (by rw [netWorthList_length]; simp only [career_length, cfgC1]; omega)⟩

theorem diffs_length (cfg : Config) :
    (diffs cfg).length = (career_length cfg).toNat := by
  simp [diffs, publishedRecords, rawRecords, netWorthList_length, yearsList_length]

/-- C2, counterexample: the claim asserts that the reported financial
freedom age is the smallest age where `investmentIncome ≥ spending`,
and that a first year that already qualifies is reported.  On `cfgC2`
(1,000,000 of savings, zero salary and spending) every year of the
2-year horizon qualifies — in particular the first — yet the script's
sign-change detector finds no sign change in
`Investment Income - Spending` and reports nothing at all. -/
theorem C2_first_year_counterexample :
    ffAge cfgC2 = none ∧
    (publishedRecords cfgC2).length = 2 ∧
    ((publishedRecords cfgC2).getD 0 dz).spending ≤
      ((publishedRecords cfgC2).getD 0 dz).investmentIncome := by
  refine ⟨?_, ?_, ?_⟩ <;>
  · simp [ffAge, diffs, publishedRecords, rawRecords, roundRecord, roundHalfEven,
      firstSignChange, netWorthList, contribsList, yearsList, career_length,
      List.range_succ, nwScan, nwStep, contribFor, afterTaxFor, spendingFor,
      salaryFor, income_tax, fica_tax, calculate_tax, calcTaxGo, TAX_BRACKETS,
      TAX_RATES, DEDUCTIONS, cfgC2, dz]
    try norm_num
    try decide

/-- C2, amended: the script reports an age exactly when the sign of
`Investment Income - Spending` changes somewhere along the horizon; in
that case the reported age is the age of the row immediately after the
FIRST sign change (no earlier sign change exists).  When the sign never
changes — in particular when every year already qualifies — nothing is
reported. -/
theorem C2_ffAge_sign_change (cfg : Config) :
    (ffAge cfg = none → ∀ i, i + 1 < (diffs cfg).length →
        ((diffs cfg).getD (i + 1) 0).sign = ((diffs cfg).getD i 0).sign) ∧
    ∀ a, ffAge cfg = some a → ∃ k : ℕ, a = cfg.age + (k : ℤ) + 2 ∧
        k + 1 < (diffs cfg).length ∧
        ((diffs cfg).getD (k + 1) 0).sign ≠ ((diffs cfg).getD k 0).sign ∧
        ∀ j, j < k → ((diffs cfg).getD (j + 1) 0).sign = ((diffs cfg).getD j 0).sign := by
  constructor
  · intro hnone
    have h0 : firstSignChange (diffs cfg) = none := by
      unfold ffAge at hnone
      exact Option.map_eq_none'.mp hnone
    exact fsc_none _ h0
  · intro a ha
    unfold ffAge at ha
    rw [Option.map_eq_some'] at ha
    obtain ⟨k, hk, rfl⟩ := ha
    obtain ⟨h1, h2, h3⟩ := fsc_some _ k hk
    exact ⟨k, rfl, h1, h2, h3⟩

/-- C2, witness: the amended characterisation applied to `cfgC2`,
whose run reports nothing, at `i = 0`. -/
theorem C2_ffAge_sign_change_witness :
    ffAge cfgC2 = none ∧
    ((diffs cfgC2).getD (0 + 1) 0).sign = ((diffs cfgC2).getD 0 0).sign := by
  have hnone : ffAge cfgC2 = none := by
    simp [ffAge, diffs, publishedRecords, rawRecords, roundRecord, roundHalfEven,
      firstSignChange, netWorthList, contribsList, yearsList, career_length,
      List.range_succ, nwScan, nwStep, contribFor, afterTaxFor, spendingFor,
      salaryFor, income_tax, fica_tax, calculate_tax, calcTaxGo, TAX_BRACKETS,
      TAX_RATES, DEDUCTIONS, cfgC2]
    try norm_num
    try decide
  refine ⟨hnone, (C2_ffAge_sign_change cfgC2).1 hnone 0 ?_⟩
  rw [diffs_length]
  simp only [career_length, cfgC2]
  omega

/-- C3: the claim (and the sidebar caption of the `other_income`
input) says `investmentIncome = netWorth × withdrawalRate +
otherRetirementIncome`, but the script computes
`Investment Income = Net Worth * withdrawal_rate` and never uses
`other_income`.  On `cfgC3` (1000 of other retirement income, zero
everything else) the script's first-year investment income is 0 while
the documented formula gives 1000. -/
theorem C3_other_income_ignored :
    ((rawRecords cfgC3).getD 0 dq).investmentIncome = 0 ∧
    ((rawRecords cfgC3).getD 0 dq).netWorth * cfgC3.withdrawal_rate +
      cfgC3.other_income = 1000 ∧
    ((0 : ℚ) ≠ 1000) := by
  refine ⟨?_, ?_, by norm_num⟩ <;>
  · simp [rawRecords, netWorthList, contribsList, yearsList, career_length,
      List.range_succ, nwScan, nwStep, contribFor, afterTaxFor, spendingFor,
      salaryFor, income_tax, fica_tax, calculate_tax, calcTaxGo, TAX_BRACKETS,
      TAX_RATES, DEDUCTIONS, cfgC3, dq]
    try norm_num

/-- C4, counterexample: with the diminish checkbox off the claim
asserts `salary(year) = initialSalary * (1 + growthRate) ^ (year - 1)`,
predicting `52000 * 1.03 ^ 4` at year 5.  The script instead computes
`initial_salary * (1 + g - g / year) ^ (year - 1)`, which at year 5 is
`52000 * 1.024 ^ 4 = 57174.604644352 ≠ 52000 * 1.03 ^ 4`. -/
theorem C4_compound_salary_counterexample :
    salaryFor cfgC4 5 = 111669149696 / 1953125 ∧
    52000 * (1 + (3 : ℚ) / 100) ^ 4 = 1463161453 / 25000 ∧
    (111669149696 / 1953125 : ℚ) ≠ 1463161453 / 25000 := by
  refine ⟨?_, by norm_num, by norm_num⟩
  norm_num [salaryFor, cfgC4]

/-- C4, amended: with the diminish checkbox off, the projected salary
at year `N ≥ 1` is `initialSalary * (1 + growthRate - growthRate / N) ^ (N - 1)`
(equivalently `initialSalary * (1 + growthRate * (N - 1) / N) ^ (N - 1)`),
not plain geometric growth. -/
theorem C4_salary_growth_formula (cfg : Config) (year : ℕ)
    (hc : cfg.checkbox_state = false) (_hy : 1 ≤ year) :
    salaryFor cfg year =
      cfg.initial_salary *
        (1 + cfg.salary_growth - cfg.salary_growth / (year : ℚ)) ^ (year - 1) := by
  simp [salaryFor, hc]

/-- C4, witness: the amended formula instantiated at `cfgC4`,
year 5. -/
theorem C4_salary_growth_formula_witness :
    cfgC4.checkbox_state = false ∧ 1 ≤ 5 ∧
    salaryFor cfgC4 5 =
      cfgC4.initial_salary *
        (1 + cfgC4.salary_growth - cfgC4.salary_growth / ((5 : ℕ) : ℚ)) ^ (5 - 1) :=
  ⟨rfl, by norm_num, C4_salary_growth_formula cfgC4 5 rfl (by norm_num)⟩

/-- C5, counterexample: the claim says
`computeTax(50000, income) = 4118`.  The income brackets start at
11001, not 11000, so the 12% slice is `36150 - 11001 = 25149`, not
25150, and the tax is 4117.88. -/
theorem C5_tax_50000_counterexample :
    calculate_tax 50000 TaxType.income ≠ 4118 := by
  norm_num [calculate_tax, calcTaxGo, TAX_BRACKETS, TAX_RATES, DEDUCTIONS]

/-- C5, amended: `computeTax(50000, income) = 4117.88`, made of 1100
from the first bracket (11000 at 10%) and 3017.88 from the 12% bracket
slice of `36150 - 11001 = 25149`. -/
theorem C5_tax_50000_value :
    calculate_tax 50000 TaxType.income = 411788 / 100 ∧
    (411788 / 100 : ℚ) = 11000 * (10 / 100) + 25149 * (12 / 100) := by
  constructor
  · norm_num [calculate_tax, calcTaxGo, TAX_BRACKETS, TAX_RATES, DEDUCTIONS]
  · norm_num

theorem rawRecords_length (cfg : Config) :
    (rawRecords cfg).length = (career_length cfg).toNat := by
  simp [rawRecords, netWorthList_length, yearsList_length]

/-- C6: for every tax category, `calculate_tax` is non-negative on
non-negative gross income and monotone non-decreasing in gross
income. -/
theorem C6_tax_nonneg_monotone (t : TaxType) (x y : ℚ)
    (_hx : 0 ≤ x) (hxy : x ≤ y) :
    0 ≤ calculate_tax x t ∧ calculate_tax x t ≤ calculate_tax y t :=
  ⟨calcTaxGo_nonneg x (DEDUCTIONS t) _ (zip_rates_nonneg t) x,
   calcTaxGo_mono (DEDUCTIONS t) _ (zip_rates_nonneg t) x y x y hxy hxy⟩

/-- C6, witness: non-negativity and monotonicity at the concrete pair
`(100, 200)` in the income category. -/
theorem C6_tax_nonneg_monotone_witness :
    (0 : ℚ) ≤ 100 ∧ (100 : ℚ) ≤ 200 ∧
    (0 ≤ calculate_tax 100 TaxType.income ∧
      calculate_tax 100 TaxType.income ≤ calculate_tax 200 TaxType.income) :=
  ⟨by norm_num, by norm_num,
   C6_tax_nonneg_monotone TaxType.income 100 200 (by norm_num) (by norm_num)⟩

/-- C7, counterexample: the claim says a run whose horizon is ≤ 0
raises `InvalidConfiguration` before any computation begins.  On
`cfgC7` (`life_expectancy = age`, horizon 0) the run does fail, but
with the uncaught `KeyError` of line 214 — raised only after the
salary, tax and contribution columns of the empty frame have been
built — not with an `InvalidConfiguration` validation error. -/
theorem C7_zero_horizon_counterexample :
    career_length cfgC7 ≤ 0 ∧
    project cfgC7 = Except.error RunError.keyError ∧
    RunError.keyError ≠ RunError.invalidConfiguration := by
  refine ⟨by norm_num [career_length, cfgC7], ?_, by decide⟩
  have hy : yearsList cfgC7 = [] := by
    have h0 : (career_length cfgC7).toNat = 0 := by
      simp only [career_length, cfgC7]
      omega
    simp [yearsList, h0]
  simp [project, hy]

/-- C7, amended: the script performs no validation and defines no
`InvalidConfiguration`.  When `horizonLength ≤ 0` the run fails with
the uncaught `KeyError` of line 214 (no timeline is published, but the
failure is not raised before computation: the columns of the empty
frame are built first); when `horizonLength ≥ 1` it succeeds with a
complete timeline of exactly `horizonLength` rows. -/
theorem C7_project_error_path (cfg : Config) :
    (career_length cfg ≤ 0 → project cfg = Except.error RunError.keyError) ∧
    (1 ≤ career_length cfg →
      project cfg = Except.ok (publishedRecords cfg) ∧
      (publishedRecords cfg).length = (career_length cfg).toNat) := by
  constructor
  · intro h0
    have hlen : (yearsList cfg).length = 0 := by
      rw [yearsList_length]
      omega
    have hy : yearsList cfg = [] := List.length_eq_zero.mp hlen
    simp [project, hy]
  · intro h1
    have hlen : (yearsList cfg).length ≠ 0 := by
      rw [yearsList_length]
      omega
    rcases hy : yearsList cfg with _ | ⟨a, l⟩
    · exact absurd (by rw [hy]; rfl) hlen
    · refine ⟨by simp [project, hy], ?_⟩
      simp [publishedRecords, rawRecords, netWorthList_length, yearsList_length]

/-- C7, witness: the error branch of the amended theorem at `cfgC7`,
whose horizon is 0. -/
theorem C7_project_error_path_witness :
    career_length cfgC7 ≤ 0 ∧ project cfgC7 = Except.error RunError.keyError :=
  ⟨by norm_num [career_length, cfgC7],
   (C7_project_error_path cfgC7).1 (by norm_num [career_length, cfgC7])⟩

/-- C8: the projected salary at year 1 equals `initial_salary` in both
growth modes (in either branch the exponent `year - 1` is zero). -/
theorem C8_salary_year_one (cfg : Config) :
    salaryFor cfg 1 = cfg.initial_salary ∧
    (1 ≤ career_length cfg → (salaryList cfg).getD 0 0 = cfg.initial_salary) := by
  have h1 : salaryFor cfg 1 = cfg.initial_salary := by
    unfold salaryFor
    split <;> simp
  refine ⟨h1, ?_⟩
  intro hcar
  obtain ⟨m, hm⟩ : ∃ m, (career_length cfg).toNat = m + 1 :=
    ⟨(career_length cfg).toNat - 1, by omega⟩
  rw [salaryList, yearsList, hm, List.range_succ_eq_map]
  simp [h1]

/-- C8, witness: year-1 salary on `cfgC8`, a configuration using the
diminishing-growth branch. -/
theorem C8_salary_year_one_witness :
    (1 : ℤ) ≤ career_length cfgC8 ∧
    (salaryList cfgC8).getD 0 0 = cfgC8.initial_salary :=
  ⟨by simp only [career_length, cfgC8]; omega,
   (C8_salary_year_one cfgC8).2 (by simp only [career_length, cfgC8]; omega)⟩

/-- C9: the fica category has the single bounded bracket
`(0, 160000)` at rate 0.0765 and no deduction, so for gross income
`x ≥ 0` the FICA tax is `0.0765 * min(x, 160000)`; above 160000 it is
the constant cap 12240. -/
theorem C9_fica_formula (x : ℚ) (hx : 0 ≤ x) :
    calculate_tax x TaxType.fica = 765 / 10000 * min x 160000 ∧
    (160000 ≤ x → calculate_tax x TaxType.fica = 12240) := by
  have hmain : calculate_tax x TaxType.fica = 765 / 10000 * min x 160000 := by
    rcases eq_or_lt_of_le hx with heq | hpos
    · rw [← heq, min_eq_left (by norm_num : (0 : ℚ) ≤ 160000)]
      norm_num [calculate_tax, calcTaxGo, TAX_BRACKETS, TAX_RATES, DEDUCTIONS]
    · have hne : ¬ x ≤ 0 := not_le.mpr hpos
      have hmin : (0 : ℚ) < min (160000 : ℚ) (x - 0) - 0 := by
        rw [sub_zero, sub_zero]
        exact lt_min (by norm_num) hpos
      simp only [calculate_tax, TAX_BRACKETS, TAX_RATES, DEDUCTIONS,
        List.zip_cons_cons, List.zip_nil_right, calcTaxGo, if_neg hne, if_pos hmin]
      rw [sub_zero, sub_zero, min_comm]
      ring
  refine ⟨hmain, fun hcap => ?_⟩
  rw [hmain, min_eq_right hcap]
  norm_num

/-- C9, witness: the formula and the cap at gross income 200000. -/
theorem C9_fica_formula_witness :
    (0 : ℚ) ≤ 200000 ∧
    (calculate_tax 200000 TaxType.fica = 765 / 10000 * min (200000 : ℚ) 160000 ∧
      ((160000 : ℚ) ≤ 200000 → calculate_tax 200000 TaxType.fica = 12240)) :=
  ⟨by norm_num, C9_fica_formula 200000 (by norm_num)⟩

/-- C10: the published table is the rounding (half-to-even, to
integers) of the raw rational table, field by field, and the
financial-freedom comparison `Investment Income - Spending` is made on
those rounded integer columns, not on the exact rational values. -/
theorem C10_rounded_comparison (cfg : Config) (i : ℕ)
    (h : i < (rawRecords cfg).length) :
    (publishedRecords cfg).getD i dz = roundRecord ((rawRecords cfg).getD i dq) ∧
    (diffs cfg).getD i 0 =
      roundHalfEven (((rawRecords cfg).getD i dq).investmentIncome) -
      roundHalfEven (((rawRecords cfg).getD i dq).spending) ∧
    ffAge cfg = (firstSignChange (diffs cfg)).map fun k : ℕ => cfg.age + (k : ℤ) + 2 := by
  have hp : i < (publishedRecords cfg).length := by
    simpa [publishedRecords] using h
  have h1 : (publishedRecords cfg).getD i dz = roundRecord ((rawRecords cfg).getD i dq) :=
    getD_map roundRecord dq dz (rawRecords cfg) i h
  refine ⟨h1, ?_, rfl⟩
  have h2 := getD_map (fun r : YearRecordZ => r.investmentIncome - r.spending) dz 0
    (publishedRecords cfg) i hp
  calc (diffs cfg).getD i 0
      = ((publishedRecords cfg).getD i dz).investmentIncome -
          ((publishedRecords cfg).getD i dz).spending := h2
    _ = _ := by rw [h1]; rfl

/-- C10, witness: the correspondence at row 0 of the one-year run
`cfgC10`. -/
theorem C10_rounded_comparison_witness :
    0 < (rawRecords cfgC10).length ∧
    ((publishedRecords cfgC10).getD 0 dz = roundRecord ((rawRecords cfgC10).getD 0 dq) ∧
      (diffs cfgC10).getD 0 0 =
        roundHalfEven (((rawRecords cfgC10).getD 0 dq).investmentIncome) -
        roundHalfEven (((rawRecords cfgC10).getD 0 dq).spending) ∧
      ffAge cfgC10 =
        (firstSignChange (diffs cfgC10)).map fun k : ℕ => cfgC10.age + (k : ℤ) + 2) :=
  ⟨by rw [rawRecords_length]; simp only [career_length, cfgC10]; omega,
   C10_rounded_comparison cfgC10 0
     (by rw [rawRecords_length]; simp only [career_length, cfgC10]; omega)⟩

end RetCalc
